import Mathlib

/-!
Verification of the host-side GPU orchestration layer of the black-hole
renderer (`src/main.rs`).  The f32 arithmetic of the source is modelled by
exact real arithmetic; machine-size integers (`u32`) by `Nat`.  GPU calls
are modelled by an explicit effect trace so that ordering claims become
statements about lists.
-/

namespace BlackHole

/-- Rust `f32::clamp(lo, hi)`: returns `lo` if `x < lo`, `hi` if `x > hi`,
else `x` (for `lo ≤ hi` this is `min (max x lo) hi`).
From `pitch.clamp(-limit, limit)` and `(…).clamp(0.2, 5.0)` in `main.rs`. -/
noncomputable def clampR (x lo hi : ℝ) : ℝ := min (max x lo) hi

/-- Source `let limit = 0.995 * (PI / 2.0);` — `main.rs` line 512. -/
noncomputable def pitchLimit : ℝ := 0.995 * (Real.pi / 2)

/-- Source `struct CameraCtrl` — `main.rs` lines 22-29.  Cursor positions are
pairs of reals (`glam::Vec2`). -/
structure CameraCtrl where
  yaw : ℝ
  pitch : ℝ
  radius : ℝ
  fovY : ℝ
  dragging : Bool
  lastCursor : Option (ℝ × ℝ)

/-- Constructor `CameraCtrl::new()` — `main.rs` lines 31-40. -/
noncomputable def CameraCtrl.new : CameraCtrl where
  yaw := 0.6
  pitch := 0.3
  radius := 4.0
  fovY := Real.pi / 180 * 60
  dragging := false
  lastCursor := none

/-- Type `winit::event::MouseScrollDelta` as consumed by the `MouseWheel` arm
(`main.rs` lines 520-523): only the vertical component is read. -/
inductive ScrollDelta where
  | line (y : ℝ)
  | pixel (y : ℝ)

/-- The camera-relevant window events dispatched in `window_event`
(`main.rs` lines 500-527): left-mouse press/release, cursor motion and
scroll. -/
inductive CamEvent where
  | mouseLeft (pressed : Bool)
  | cursorMoved (x y : ℝ)
  | mouseWheel (delta : ScrollDelta)

/-- Conversion of `MouseScrollDelta` to scroll amount — `main.rs` lines 520-523:
`LineDelta(_, y) => y`, `PixelDelta(p) => p.y / 50.0`. -/
noncomputable def scrollAmount : ScrollDelta → ℝ
  | .line y => y
  | .pixel y => y / 50

/-- The camera-controller transition function: the `MouseInput`,
`CursorMoved` and `MouseWheel` arms of `window_event`
(`main.rs` lines 500-527), restricted to the `CameraCtrl` state they
mutate. -/
noncomputable def ctrlStep (c : CameraCtrl) : CamEvent → CameraCtrl
  | .mouseLeft pressed =>
      -- dragging = (state == Pressed); if !dragging { last_cursor = None }
      if pressed then { c with dragging := true }
      else { c with dragging := false, lastCursor := none }
  | .cursorMoved x y =>
      if c.dragging then
        match c.lastCursor with
        | some prev =>
            let dx := x - prev.1
            let dy := y - prev.2
            let sensitivity : ℝ := 0.005
            { c with
              yaw := c.yaw - dx * sensitivity,
              pitch := clampR (c.pitch - dy * sensitivity) (-pitchLimit) pitchLimit,
              lastCursor := some (x, y) }
        | none => { c with lastCursor := some (x, y) }
      else c
  | .mouseWheel delta =>
      let scroll := scrollAmount delta
      let factor := clampR (1 - scroll * 0.1) 0.2 5
      { c with radius := clampR (c.radius * factor) 1 50 }

/-- A sequence of input events applied in order to the controller. -/
noncomputable def applyEvents (c : CameraCtrl) (evs : List CamEvent) : CameraCtrl :=
  evs.foldl ctrlStep c

/-- A controller state reachable from `CameraCtrl.new` by input events. -/
def Reachable (c : CameraCtrl) : Prop :=
  ∃ evs : List CamEvent, applyEvents CameraCtrl.new evs = c

/-! ## Camera matrices (`eye_target_up`, `compute_camera_mats`) -/

/-- Three-component float vector (`glam::Vec3`). -/
structure V3 where
  x : ℝ
  y : ℝ
  z : ℝ

noncomputable def V3.dot (a b : V3) : ℝ := a.x * b.x + a.y * b.y + a.z * b.z

noncomputable def V3.cross (a b : V3) : V3 :=
  ⟨a.y * b.z - a.z * b.y, a.z * b.x - a.x * b.z, a.x * b.y - a.y * b.x⟩

noncomputable def V3.sub (a b : V3) : V3 := ⟨a.x - b.x, a.y - b.y, a.z - b.z⟩

noncomputable def V3.normalize (a : V3) : V3 :=
  let len := Real.sqrt (a.dot a)
  ⟨a.x / len, a.y / len, a.z / len⟩

/-- Real 4×4 float matrix (`glam::Mat4`), idealized as a real matrix; the
`Mat4::inverse` cofactor expansion is idealized as matrix inversion. -/
abbrev Mat4 : Type := Matrix (Fin 4) (Fin 4) ℝ

/-- Method `CameraCtrl::eye_target_up` — `main.rs` lines 41-46. -/
noncomputable def CameraCtrl.eyeTargetUp (c : CameraCtrl) : V3 × V3 × V3 :=
  let x := c.radius * Real.cos c.yaw * Real.cos c.pitch
  let y := c.radius * Real.sin c.pitch
  let z := c.radius * Real.sin c.yaw * Real.cos c.pitch
  (⟨x, y, z⟩, ⟨0, 0, 0⟩, ⟨0, 1, 0⟩)

/-- Function `glam::Mat4::look_at_rh(eye, center, up)` (delegates to `look_to_rh`
with direction `center − eye`); entries written row-wise, columns as in
glam's `from_cols`. -/
noncomputable def lookAtRh (eye center up : V3) : Mat4 :=
  let f := (center.sub eye).normalize
  let s := (f.cross up).normalize
  let u := s.cross f
  Matrix.of
    ![![s.x, s.y, s.z, -(eye.dot s)],
      ![u.x, u.y, u.z, -(eye.dot u)],
      ![-f.x, -f.y, -f.z, eye.dot f],
      ![0, 0, 0, 1]]

/-- Function `glam::Mat4::perspective_rh(fov_y, aspect, z_near, z_far)`. -/
noncomputable def perspectiveRh (fovY aspect zNear zFar : ℝ) : Mat4 :=
  let h := Real.cos (0.5 * fovY) / Real.sin (0.5 * fovY)
  let w := h / aspect
  let r := zFar / (zNear - zFar)
  Matrix.of
    ![![w, 0, 0, 0],
      ![0, h, 0, 0],
      ![0, 0, r, r * zNear],
      ![0, 0, -1, 0]]

/-- Function `compute_camera_mats` — `main.rs` lines 438-447: inverse look-at view
matrix and inverse perspective matrix, aspect from dimensions clamped to
at least 1. -/
noncomputable def computeCameraMats (ctrl : CameraCtrl) (width height : ℕ) :
    Mat4 × Mat4 :=
  let etu := ctrl.eyeTargetUp
  let view := lookAtRh etu.1 etu.2.1 etu.2.2
  let viewInv := view⁻¹
  let aspect : ℝ := (max width 1 : ℕ) / ((max height 1 : ℕ) : ℝ)
  let proj := perspectiveRh ctrl.fovY aspect 0.1 1000
  (viewInv, proj⁻¹)

/-! ## Camera parameter block (`CameraUbo`) -/

/-- Source `struct CameraUbo` — `main.rs` lines 14-20: `#[repr(C)]` with fields
`view_inv: [[f32;4];4]`, `proj_inv: [[f32;4];4]`,
`params: [f32;4]` (width, height, time, pad). -/
structure CameraUbo where
  viewInv : Mat4
  projInv : Mat4
  params : ℝ × ℝ × ℝ × ℝ

/-- One column of a matrix as glam's `to_cols_array_2d` lists it. -/
noncomputable def matCol (m : Mat4) (j : Fin 4) : List ℝ :=
  [m 0 j, m 1 j, m 2 j, m 3 j]

/-- Column-major flattening of a 4×4 matrix (`to_cols_array_2d` then
`repr(C)` layout). -/
noncomputable def matColsFlatten (m : Mat4) : List ℝ :=
  matCol m 0 ++ matCol m 1 ++ matCol m 2 ++ matCol m 3

/-- The `repr(C)` byte layout of `CameraUbo` as a flat list of f32 words:
the 16 column-major words of `view_inv`, then those of `proj_inv`, then
the 4 `params` words.  Each word occupies 4 bytes. -/
noncomputable def CameraUbo.layoutWords (u : CameraUbo) : List ℝ :=
  matColsFlatten u.viewInv ++ matColsFlatten u.projInv ++
    [u.params.1, u.params.2.1, u.params.2.2.1, u.params.2.2.2]

/-- Size in bytes of one f32. -/
def f32Bytes : ℕ := 4

/-- The `CameraUbo` value built in `update_camera_buffer`
(`main.rs` lines 348-358): matrices from the current controller state and
current surface-config dimensions, params `(width, height, time, 0)`. -/
noncomputable def mkUbo (ctrl : CameraCtrl) (w h : ℕ) (time : ℝ) : CameraUbo :=
  let m := computeCameraMats ctrl w h
  { viewInv := m.1, projInv := m.2, params := ((w : ℝ), (h : ℝ), time, 0) }

/-! ## GPU state, effect traces, resize protocol, render -/

/-- Which of the two bind groups is being (re)created. -/
inductive BindKind where
  | compute
  | blit

/-- Host-visible GPU actions, recorded in program order. -/
inductive GpuEffect where
  | configureSurface (width height : ℕ)
  | createTexture (id width height : ℕ)
  | createBindGroup (kind : BindKind) (texId : ℕ)
  | writeCameraBuffer (ubo : CameraUbo)
  | beginComputePass
  | dispatchWorkgroups (x y z : ℕ)
  | beginRenderPass
  | draw (vertices : ℕ)
  | submit
  | present
  | logError

/-- The fields of `GpuState` (`main.rs` lines 49-73) that the verified
claims are about.  Textures are identified by an allocation counter
`nextTexId`; the two bind groups record which texture id they reference. -/
structure GpuState where
  configWidth : ℕ
  configHeight : ℕ
  sizeWidth : ℕ
  sizeHeight : ℕ
  storageTexId : ℕ
  storageTexWidth : ℕ
  storageTexHeight : ℕ
  computeBGTex : ℕ
  renderBGTex : ℕ
  cameraBuf : CameraUbo
  cameraCtrl : CameraCtrl
  nextTexId : ℕ

/-- Method `GpuState::update_camera_buffer` — `main.rs` lines 348-358: rebuild
the UBO from the current controller and config dimensions and overwrite
the single camera buffer. -/
noncomputable def updateCameraBuffer (st : GpuState) (time : ℝ) :
    GpuState × List GpuEffect :=
  let ubo := mkUbo st.cameraCtrl st.configWidth st.configHeight time
  ({ st with cameraBuf := ubo }, [.writeCameraBuffer ubo])

/-- Method `GpuState::resize` — `main.rs` lines 298-346.  Zero width or height:
return unchanged with no effects.  Otherwise, in program order: update
`size`/`config`, reconfigure the surface, create a fresh storage texture
(fresh id), rebuild the compute bind group, rebuild the render bind
group, then `update_camera_buffer(0.0)`. -/
noncomputable def resize (st : GpuState) (w h : ℕ) : GpuState × List GpuEffect :=
  if w = 0 ∨ h = 0 then (st, [])
  else
    let newId := st.nextTexId
    let st1 := { st with
      sizeWidth := w, sizeHeight := h,
      configWidth := w, configHeight := h,
      storageTexId := newId, storageTexWidth := w, storageTexHeight := h,
      computeBGTex := newId, renderBGTex := newId,
      nextTexId := newId + 1 }
    let upd := updateCameraBuffer st1 0
    (upd.1,
     [.configureSurface w h, .createTexture newId w h,
      .createBindGroup .compute newId, .createBindGroup .blit newId] ++ upd.2)

/-- The compute dispatch grid — `main.rs` lines 379-381:
`wg_x = (width + 7) / 8`, `wg_y = (height + 7) / 8`, depth 1
(`u32` integer division). -/
def dispatchGrid (w h : ℕ) : ℕ × ℕ × ℕ := ((w + 7) / 8, (h + 7) / 8, 1)

/-- Type `wgpu::SurfaceError` as matched in `window_event RedrawRequested`. -/
inductive SurfaceError where
  | timeout
  | outdated
  | lost
  | outOfMemory
  | other

/-- Method `GpuState::render` — `main.rs` lines 360-409, with the outcome of
`surface.get_current_texture()` supplied as a parameter.  The camera
buffer is overwritten first; on acquisition failure the error propagates
(`?`) before any pass is recorded; on success one compute pass (grid
from `self.size`) and one render pass (clear, 3-vertex draw) are recorded
and submitted, then the frame is presented. -/
noncomputable def render (st : GpuState) (time : ℝ)
    (acq : Except SurfaceError Unit) :
    GpuState × List GpuEffect × Option SurfaceError :=
  let upd := updateCameraBuffer st time
  match acq with
  | .error e => (upd.1, upd.2, some e)
  | .ok _ =>
      let g := dispatchGrid upd.1.sizeWidth upd.1.sizeHeight
      (upd.1,
       upd.2 ++ [.beginComputePass, .dispatchWorkgroups g.1 g.2.1 g.2.2,
                 .beginRenderPass, .draw 3, .submit, .present],
       none)

/-- The `RedrawRequested` arm of `window_event` — `main.rs` lines
528-537: run `render`; on `Lost` re-run `resize` at the current size; on
`OutOfMemory` exit the event loop (third component `true`); on any other
error log it and skip the frame. -/
noncomputable def onRedraw (st : GpuState) (t : ℝ)
    (acq : Except SurfaceError Unit) : GpuState × List GpuEffect × Bool :=
  let r := render st t acq
  match r.2.2 with
  | none => (r.1, r.2.1, false)
  | some .lost =>
      let rz := resize r.1 r.1.sizeWidth r.1.sizeHeight
      (rz.1, r.2.1 ++ rz.2, false)
  | some .outOfMemory => (r.1, r.2.1, true)
  | some _ => (r.1, r.2.1 ++ [.logError], false)

/-- A concrete well-formed GPU state used to instantiate theorems with
hypotheses: an 8×8 surface just after startup. -/
noncomputable def sampleState : GpuState where
  configWidth := 8
  configHeight := 8
  sizeWidth := 8
  sizeHeight := 8
  storageTexId := 0
  storageTexWidth := 8
  storageTexHeight := 8
  computeBGTex := 0
  renderBGTex := 0
  cameraBuf := mkUbo CameraCtrl.new 8 8 0
  cameraCtrl := CameraCtrl.new
  nextTexId := 1

/-! ## Helper lemmas -/

lemma clampR_le (x lo hi : ℝ) : clampR x lo hi ≤ hi := min_le_right _ _

lemma le_clampR (x lo hi : ℝ) (h : lo ≤ hi) : lo ≤ clampR x lo hi :=
  le_min (le_max_right _ _) h

lemma clampR_mem_Icc (x lo hi : ℝ) (h : lo ≤ hi) :
    clampR x lo hi ∈ Set.Icc lo hi :=
  ⟨le_clampR x lo hi h, clampR_le x lo hi⟩

lemma clampR_of_le (x lo hi : ℝ) (hlo : lo ≤ x) (hhi : hi ≤ x) :
    clampR x lo hi = hi := by
  unfold clampR
  rw [max_eq_left hlo, min_eq_right hhi]

lemma clampR_of_mem (x lo hi : ℝ) (hlo : lo ≤ x) (hhi : x ≤ hi) :
    clampR x lo hi = x := by
  unfold clampR
  rw [max_eq_left hlo, min_eq_left hhi]

lemma pitchLimit_pos : 0 < pitchLimit := by
  unfold pitchLimit
  positivity

lemma pitchLimit_lt_two : pitchLimit < 2 := by
  unfold pitchLimit
  nlinarith [Real.pi_lt_four]

lemma lt_pitchLimit : (1.49 : ℝ) < pitchLimit := by
  unfold pitchLimit
  nlinarith [Real.pi_gt_three]

/-! ## Claim theorems -/

/-- C6: A resize notification carrying a zero width or a zero height is a
no-op: the entire GPU state (FrameImage, surface configuration, binding
sets, camera controller) is returned unchanged and the effect trace is
empty (no GPU resources are touched). -/
theorem c6_zero_resize_noop (st : GpuState) (w h : ℕ) (hwh : w = 0 ∨ h = 0) :
    resize st w h = (st, []) := by
  unfold resize
  simp [hwh]

/-- C6 witness: resize to width 0 at a concrete state is a no-op. -/
theorem c6_zero_resize_noop_witness :
    resize sampleState 0 5 = (sampleState, []) :=
  c6_zero_resize_noop sampleState 0 5 (Or.inl rfl)

/-- C7: For every image of dimensions (W,H) with W,H > 0 the compute
dispatch grid equals (⌈W/8⌉, ⌈H/8⌉, 1); in particular (1,1) → (1,1,1),
(8,8) → (1,1,1) and (9,8) → (2,1,1). -/
theorem c7_dispatch_grid :
    (∀ w h : ℕ, 0 < w → 0 < h → dispatchGrid w h = (w ⌈/⌉ 8, h ⌈/⌉ 8, 1)) ∧
    dispatchGrid 1 1 = (1, 1, 1) ∧
    dispatchGrid 8 8 = (1, 1, 1) ∧
    dispatchGrid 9 8 = (2, 1, 1) := by
  refine ⟨fun w h _ _ => ?_, by decide, by decide, by decide⟩
  have h8 : ∀ n : ℕ, n ⌈/⌉ 8 = (n + 7) / 8 := fun n => by
    rw [Nat.ceilDiv_eq_add_pred_div]
    omega
  rw [dispatchGrid, h8, h8]

/-- C7 witness: the general grid formula instantiated at (9, 8). -/
theorem c7_dispatch_grid_witness :
    dispatchGrid 9 8 = (9 ⌈/⌉ 8, 8 ⌈/⌉ 8, 1) :=
  c7_dispatch_grid.1 9 8 (by decide) (by decide)

/-- C10: A scroll event in pixel units with vertical delta p is handled
exactly like a line-unit scroll of p / 50: the controller transition
functions coincide. -/
theorem c10_pixel_scroll (c : CameraCtrl) (p : ℝ) :
    ctrlStep c (.mouseWheel (.pixel p)) = ctrlStep c (.mouseWheel (.line (p / 50))) := by
  simp [ctrlStep, scrollAmount]

/-- While not dragging, the last-cursor sample is absent.  This invariant
is preserved by every event and holds initially, so it holds in every
reachable controller state. -/
lemma ctrlStep_idle_no_cursor (c : CameraCtrl)
    (h : c.dragging = false → c.lastCursor = none) (e : CamEvent) :
    (ctrlStep c e).dragging = false → (ctrlStep c e).lastCursor = none := by
  cases e with
  | mouseLeft pressed =>
      cases pressed <;> simp [ctrlStep]
  | cursorMoved x y =>
      by_cases hd : c.dragging
      · cases hl : c.lastCursor <;> simp [ctrlStep, hd, hl]
      · simpa [ctrlStep, hd] using h
  | mouseWheel delta =>
      simpa [ctrlStep] using h

lemma reachable_idle_no_cursor (c : CameraCtrl) (h : Reachable c)
    (hd : c.dragging = false) : c.lastCursor = none := by
  obtain ⟨evs, rfl⟩ := h
  suffices hgen : ∀ (l : List CamEvent) (c0 : CameraCtrl),
      (c0.dragging = false → c0.lastCursor = none) →
      ((applyEvents c0 l).dragging = false → (applyEvents c0 l).lastCursor = none) by
    exact hgen evs CameraCtrl.new (fun _ => rfl) hd
  intro l
  induction l with
  | nil => intro c0 h0; exact h0
  | cons e tl ih =>
      intro c0 h0
      exact ih (ctrlStep c0 e) (ctrlStep_idle_no_cursor c0 h0 e)

/-- C4: In any reachable state, a left-button press while Idle yields
Dragging with no stored cursor; a left-button release while Dragging
yields Idle and clears the stored cursor; a cursor move while Idle leaves
the controller (yaw, pitch, distance, last cursor) entirely unchanged. -/
theorem c4_drag_transitions :
    (∀ c : CameraCtrl, Reachable c → c.dragging = false →
       (ctrlStep c (.mouseLeft true)).dragging = true ∧
       (ctrlStep c (.mouseLeft true)).lastCursor = none) ∧
    (∀ c : CameraCtrl, c.dragging = true →
       (ctrlStep c (.mouseLeft false)).dragging = false ∧
       (ctrlStep c (.mouseLeft false)).lastCursor = none) ∧
    (∀ (c : CameraCtrl) (x y : ℝ), c.dragging = false →
       ctrlStep c (.cursorMoved x y) = c) := by
  refine ⟨fun c hr hd => ⟨by simp [ctrlStep], ?_⟩,
          fun c _ => ⟨by simp [ctrlStep], by simp [ctrlStep]⟩,
          fun c x y hd => by simp [ctrlStep, hd]⟩
  have := reachable_idle_no_cursor c hr hd
  simpa [ctrlStep] using this

/-- C4 witness: the transitions instantiated at the initial controller
state (reachable by the empty event list) and a dragging variant of it. -/
theorem c4_drag_transitions_witness :
    ((ctrlStep CameraCtrl.new (.mouseLeft true)).dragging = true ∧
     (ctrlStep CameraCtrl.new (.mouseLeft true)).lastCursor = none) ∧
    ((ctrlStep { CameraCtrl.new with dragging := true }
        (.mouseLeft false)).dragging = false ∧
     (ctrlStep { CameraCtrl.new with dragging := true }
        (.mouseLeft false)).lastCursor = none) ∧
    ctrlStep CameraCtrl.new (.cursorMoved 3 4) = CameraCtrl.new :=
  ⟨c4_drag_transitions.1 CameraCtrl.new ⟨[], rfl⟩ rfl,
   c4_drag_transitions.2.1 { CameraCtrl.new with dragging := true } rfl,
   c4_drag_transitions.2.2 CameraCtrl.new 3 4 rfl⟩

/-- C5: A cursor move while Dragging with a stored previous sample moves
yaw by −dx·0.005, moves pitch by −dy·0.005 then clamps it, and stores the
new position; concretely, from the initial state a press, a first move to
(0,0) and a drag to (100,0) leave yaw = 0.6 − 100·0.005 = 0.1. -/
theorem c5_drag_update :
    (∀ (c : CameraCtrl) (px py : ℝ) (prev : ℝ × ℝ),
       c.dragging = true → c.lastCursor = some prev →
       ctrlStep c (.cursorMoved px py) =
         { c with
           yaw := c.yaw - (px - prev.1) * 0.005,
           pitch := clampR (c.pitch - (py - prev.2) * 0.005)
             (-pitchLimit) pitchLimit,
           lastCursor := some (px, py) }) ∧
    (applyEvents CameraCtrl.new
       [.mouseLeft true, .cursorMoved 0 0, .cursorMoved 100 0]).yaw = 0.1 := by
  constructor
  · intro c px py prev hd hl
    simp [ctrlStep, hd, hl]
  · simp [applyEvents, ctrlStep, CameraCtrl.new]
    norm_num

/-- C5 witness: the drag update instantiated at a concrete dragging state
with stored cursor (0,0) and a move to (100, 0). -/
theorem c5_drag_update_witness :
    ctrlStep
      { CameraCtrl.new with
        dragging := true,
        lastCursor := some ((0 : ℝ), (0 : ℝ)) }
      (.cursorMoved 100 0) =
    { CameraCtrl.new with
      dragging := true,
      yaw := CameraCtrl.new.yaw - (100 - 0) * 0.005,
      pitch := clampR (CameraCtrl.new.pitch - (0 - 0) * 0.005)
        (-pitchLimit) pitchLimit,
      lastCursor := some ((100 : ℝ), (0 : ℝ)) } :=
  c5_drag_update.1 _ 100 0 (0, 0) rfl rfl

/-- Scrolling −5 line units multiplies the radius by the clamped factor
3/2 and clamps into [1, 50], leaving every other field unchanged. -/
lemma ctrlStep_scroll_neg5 (c : CameraCtrl) :
    ctrlStep c (.mouseWheel (.line (-5))) =
      { c with radius := clampR (c.radius * (3 / 2)) 1 50 } := by
  have h1 : ctrlStep c (.mouseWheel (.line (-5))) =
      { c with
        radius := clampR (c.radius * clampR (1 - (-5 : ℝ) * 0.1) 0.2 5) 1 50 } :=
    rfl
  have hf : clampR (1 - (-5 : ℝ) * 0.1) 0.2 5 = 3 / 2 := by
    have h32 : (1 - (-5 : ℝ) * 0.1) = 3 / 2 := by norm_num
    rw [h32, clampR_of_mem] <;> norm_num
  rw [h1, hf]

lemma scroll_neg5_saturated (n : ℕ) :
    ∀ c : CameraCtrl, c.radius = 50 →
      (applyEvents c (List.replicate n (.mouseWheel (.line (-5))))).radius = 50 := by
  induction n with
  | zero => intro c hc; simpa [applyEvents] using hc
  | succ n ih =>
      intro c hc
      rw [applyEvents, List.replicate_succ, List.foldl_cons, ctrlStep_scroll_neg5]
      apply ih
      rw [hc]
      show clampR ((50 : ℝ) * (3 / 2)) 1 50 = 50
      rw [clampR_of_le] <;> norm_num

/-- C3: Every scroll event sets distance to
clamp(distance · clamp(1 − scroll·0.1, 0.2, 5), 1, 50), hence the
resulting distance always lies in [1, 50]; and 20 consecutive −5-line
scrolls from the initial distance 4 saturate the distance at 50. -/
theorem c3_zoom :
    (∀ (c : CameraCtrl) (d : ScrollDelta),
       (ctrlStep c (.mouseWheel d)).radius =
         clampR (c.radius * clampR (1 - scrollAmount d * 0.1) 0.2 5) 1 50 ∧
       (ctrlStep c (.mouseWheel d)).radius ∈ Set.Icc (1 : ℝ) 50) ∧
    (applyEvents CameraCtrl.new
       (List.replicate 20 (.mouseWheel (.line (-5))))).radius = 50 := by
  refine ⟨fun c d => ⟨by simp [ctrlStep], ?_⟩, ?_⟩
  · have := clampR_mem_Icc (c.radius * clampR (1 - scrollAmount d * 0.1) 0.2 5)
      1 50 (by norm_num)
    simpa [ctrlStep] using this
  · have hsplit : (20 : ℕ) = 8 + 12 := by norm_num
    rw [hsplit, List.replicate_add, applyEvents, List.foldl_append]
    have h8 : (List.foldl ctrlStep CameraCtrl.new
        (List.replicate 8 (.mouseWheel (.line (-5))))).radius = 50 := by
      simp only [List.replicate, List.foldl_cons, List.foldl_nil,
        ctrlStep_scroll_neg5]
      simp only [CameraCtrl.new]
      norm_num [clampR, min_def, max_def]
    exact scroll_neg5_saturated 12 _ h8

/-- C3 has no hypothesis in its universally quantified part, but we
record the single-scroll scenario from the spec as well: one +1-line
scroll takes the initial distance 4 to 3.6. -/
theorem c3_zoom_single_scroll :
    (ctrlStep CameraCtrl.new (.mouseWheel (.line 1))).radius = 3.6 := by
  have h1 : (ctrlStep CameraCtrl.new (.mouseWheel (.line 1))).radius =
      clampR (CameraCtrl.new.radius * clampR (1 - (1 : ℝ) * 0.1) 0.2 5) 1 50 :=
    rfl
  have hf : clampR (1 - (1 : ℝ) * 0.1) 0.2 5 = 0.9 := by
    have h9 : (1 - (1 : ℝ) * 0.1) = 0.9 := by norm_num
    rw [h9, clampR_of_mem] <;> norm_num
  have hr : CameraCtrl.new.radius = 4 := by norm_num [CameraCtrl.new]
  rw [h1, hf, hr]
  have h36 : (4 : ℝ) * 0.9 = 3.6 := by norm_num
  rw [h36, clampR_of_mem] <;> norm_num

/-- One controller step keeps the pitch inside the closed clamp
interval. -/
lemma ctrlStep_pitch_mem (c : CameraCtrl)
    (h : c.pitch ∈ Set.Icc (-pitchLimit) pitchLimit) (e : CamEvent) :
    (ctrlStep c e).pitch ∈ Set.Icc (-pitchLimit) pitchLimit := by
  cases e with
  | mouseLeft pressed => cases pressed <;> simpa [ctrlStep] using h
  | cursorMoved x y =>
      by_cases hd : c.dragging
      · cases hl : c.lastCursor with
        | none => simpa [ctrlStep, hd, hl] using h
        | some prev =>
            have hm := clampR_mem_Icc (c.pitch - (y - prev.2) * 0.005)
              (-pitchLimit) pitchLimit (by linarith [pitchLimit_pos])
            simpa [ctrlStep, hd, hl] using hm
      · simpa [ctrlStep, hd] using h
  | mouseWheel d => simpa [ctrlStep] using h

/-- C2 counterexample: the claim asserts the pitch stays in the OPEN
interval (−0.995·π/2, 0.995·π/2), but the code clamps with
`pitch.clamp(-limit, limit)`, which reaches the endpoint: after a press,
a first cursor sample at (0,0) and a drag to (0,−10000), the pitch is
exactly 0.995·π/2, which is not in the open interval. -/
theorem c2_pitch_open_interval_counterexample :
    (applyEvents CameraCtrl.new
        [.mouseLeft true, .cursorMoved 0 0, .cursorMoved 0 (-10000)]).pitch
      = pitchLimit ∧
    ¬ ((applyEvents CameraCtrl.new
        [.mouseLeft true, .cursorMoved 0 0, .cursorMoved 0 (-10000)]).pitch
      ∈ Set.Ioo (-pitchLimit) pitchLimit) := by
  have h1 : (applyEvents CameraCtrl.new
      [.mouseLeft true, .cursorMoved 0 0, .cursorMoved 0 (-10000)]).pitch =
      clampR (CameraCtrl.new.pitch - ((-10000 : ℝ) - 0) * 0.005)
        (-pitchLimit) pitchLimit := rfl
  have hp : CameraCtrl.new.pitch = 0.3 := by norm_num [CameraCtrl.new]
  have hval : (0.3 : ℝ) - ((-10000 : ℝ) - 0) * 0.005 = 50.3 := by norm_num
  have hclamp : clampR (50.3 : ℝ) (-pitchLimit) pitchLimit = pitchLimit := by
    apply clampR_of_le
    · linarith [pitchLimit_pos]
    · linarith [pitchLimit_lt_two]
  have hpitch : (applyEvents CameraCtrl.new
      [.mouseLeft true, .cursorMoved 0 0, .cursorMoved 0 (-10000)]).pitch =
      pitchLimit := by
    rw [h1, hp, hval, hclamp]
  refine ⟨hpitch, ?_⟩
  rw [hpitch, Set.mem_Ioo]
  intro hmem
  exact lt_irrefl pitchLimit hmem.2

/-- C2 (amended): for every sequence of input events applied to the
initial controller, the pitch stays in the CLOSED interval
[−0.995·π/2, 0.995·π/2] (the clamp endpoints are attainable). -/
theorem c2_pitch_closed_interval (evs : List CamEvent) :
    (applyEvents CameraCtrl.new evs).pitch
      ∈ Set.Icc (-pitchLimit) pitchLimit := by
  suffices hgen : ∀ (l : List CamEvent) (c : CameraCtrl),
      c.pitch ∈ Set.Icc (-pitchLimit) pitchLimit →
      (applyEvents c l).pitch ∈ Set.Icc (-pitchLimit) pitchLimit by
    apply hgen
    have hp : CameraCtrl.new.pitch = 0.3 := by norm_num [CameraCtrl.new]
    rw [hp]
    constructor
    · linarith [lt_pitchLimit]
    · linarith [lt_pitchLimit]
  intro l
  induction l with
  | nil => intro c h; simpa [applyEvents] using h
  | cons e tl ih =>
      intro c h
      exact ih (ctrlStep c e) (ctrlStep_pitch_mem c h e)

/-- C1: For a resize to (w,h) with w,h > 0 (fresh-id well-formedness:
the live texture id predates the allocation counter), the effect trace
is exactly: reconfigure surface, create the new texture, rebuild the
compute binding set, rebuild the display binding set, write the camera
buffer — in that order; afterwards the FrameImage and surface config
have dimensions (w,h), both binding sets reference the new image and
neither references the old one, and the camera parameter block has been
refreshed from the unchanged controller at the new dimensions. -/
theorem c1_resize_protocol (st : GpuState) (w h : ℕ)
    (hw : 0 < w) (hh : 0 < h) (hfresh : st.storageTexId < st.nextTexId) :
    (resize st w h).2 =
      [.configureSurface w h, .createTexture st.nextTexId w h,
       .createBindGroup .compute st.nextTexId, .createBindGroup .blit st.nextTexId,
       .writeCameraBuffer (mkUbo st.cameraCtrl w h 0)] ∧
    (resize st w h).1.storageTexWidth = w ∧
    (resize st w h).1.storageTexHeight = h ∧
    (resize st w h).1.configWidth = w ∧
    (resize st w h).1.configHeight = h ∧
    (resize st w h).1.computeBGTex = (resize st w h).1.storageTexId ∧
    (resize st w h).1.renderBGTex = (resize st w h).1.storageTexId ∧
    (resize st w h).1.computeBGTex ≠ st.storageTexId ∧
    (resize st w h).1.renderBGTex ≠ st.storageTexId ∧
    (resize st w h).1.cameraBuf = mkUbo st.cameraCtrl w h 0 ∧
    (resize st w h).1.cameraCtrl = st.cameraCtrl := by
  have hcond : ¬ (w = 0 ∨ h = 0) := by omega
  unfold resize
  rw [if_neg hcond]
  exact ⟨rfl, rfl, rfl, rfl, rfl, rfl, rfl,
         by simp [updateCameraBuffer]; omega,
         by simp [updateCameraBuffer]; omega, rfl, rfl⟩

/-- C1 witness: the resize trace at a concrete startup state, resized
to 4×3. -/
theorem c1_resize_protocol_witness :
    (resize sampleState 4 3).2 =
      [.configureSurface 4 3, .createTexture 1 4 3,
       .createBindGroup .compute 1, .createBindGroup .blit 1,
       .writeCameraBuffer (mkUbo CameraCtrl.new 4 3 0)] :=
  (c1_resize_protocol sampleState 4 3 (by decide) (by decide) (by decide)).1

/-- C8: On every redraw with successful acquisition, the recorded
effect trace begins with the camera-buffer overwrite and only then
records the compute dispatch and the display pass; the written block
holds the inverse matrices derived from the current controller state
and current surface dimensions plus params (width, height, time, 0),
and its repr(C) layout is 36 f32 words = 144 bytes. -/
theorem c8_camera_block (st : GpuState) (t : ℝ) :
    (render st t (.ok ())).2.1 =
      GpuEffect.writeCameraBuffer
          (mkUbo st.cameraCtrl st.configWidth st.configHeight t)
        :: [.beginComputePass,
            .dispatchWorkgroups ((st.sizeWidth + 7) / 8)
              ((st.sizeHeight + 7) / 8) 1,
            .beginRenderPass, .draw 3, .submit, .present] ∧
    (render st t (.ok ())).1.cameraBuf =
      mkUbo st.cameraCtrl st.configWidth st.configHeight t ∧
    (mkUbo st.cameraCtrl st.configWidth st.configHeight t).viewInv =
      (computeCameraMats st.cameraCtrl st.configWidth st.configHeight).1 ∧
    (mkUbo st.cameraCtrl st.configWidth st.configHeight t).projInv =
      (computeCameraMats st.cameraCtrl st.configWidth st.configHeight).2 ∧
    (mkUbo st.cameraCtrl st.configWidth st.configHeight t).params =
      ((st.configWidth : ℝ), (st.configHeight : ℝ), t, 0) ∧
    (mkUbo st.cameraCtrl st.configWidth st.configHeight t).layoutWords.length
      * f32Bytes = 144 := by
  refine ⟨rfl, rfl, rfl, rfl, rfl, ?_⟩
  simp [CameraUbo.layoutWords, matColsFlatten, matCol, f32Bytes]

/-- C9: Surface-acquisition failures are classified at the frame
boundary: Lost re-runs the resize protocol at the current size and
continues; OutOfMemory exits the event loop; any other error is logged
and the frame is skipped with the state otherwise untouched; and in
every failure case no compute or display pass is recorded, nothing is
submitted and nothing is presented. -/
theorem c9_surface_error_handling (st : GpuState) (t : ℝ) :
    ((onRedraw st t (.error .lost)).1 =
        (resize (updateCameraBuffer st t).1 st.sizeWidth st.sizeHeight).1 ∧
     (onRedraw st t (.error .lost)).2.2 = false) ∧
    (onRedraw st t (.error .outOfMemory)).2.2 = true ∧
    (∀ e, e = SurfaceError.timeout ∨ e = SurfaceError.outdated ∨
        e = SurfaceError.other →
      onRedraw st t (.error e) =
        ((updateCameraBuffer st t).1,
         [.writeCameraBuffer (mkUbo st.cameraCtrl st.configWidth st.configHeight t),
          .logError], false)) ∧
    (∀ e : SurfaceError,
      (∀ x y z, GpuEffect.dispatchWorkgroups x y z ∉ (onRedraw st t (.error e)).2.1) ∧
      GpuEffect.beginComputePass ∉ (onRedraw st t (.error e)).2.1 ∧
      GpuEffect.beginRenderPass ∉ (onRedraw st t (.error e)).2.1 ∧
      (∀ n, GpuEffect.draw n ∉ (onRedraw st t (.error e)).2.1) ∧
      GpuEffect.submit ∉ (onRedraw st t (.error e)).2.1 ∧
      GpuEffect.present ∉ (onRedraw st t (.error e)).2.1) := by
  refine ⟨⟨rfl, rfl⟩, rfl, ?_, ?_⟩
  · intro e he
    rcases he with rfl | rfl | rfl <;> rfl
  · intro e
    cases e <;>
      [skip; skip;
       (by_cases hz : st.sizeWidth = 0 ∨ st.sizeHeight = 0 <;>
          refine ⟨fun x y z => ?_, ?_, ?_, fun n => ?_, ?_, ?_⟩ <;>
          simp [onRedraw, render, updateCameraBuffer, resize, hz]);
       skip; skip] <;>
      refine ⟨fun x y z => ?_, ?_, ?_, fun n => ?_, ?_, ?_⟩ <;>
      simp [onRedraw, render, updateCameraBuffer]

/-- C9 witness: an unclassified Timeout error at a concrete state is
logged, the frame skipped, and the loop continues. -/
theorem c9_surface_error_handling_witness :
    onRedraw sampleState 0 (.error .timeout) =
      ((updateCameraBuffer sampleState 0).1,
       [.writeCameraBuffer (mkUbo CameraCtrl.new 8 8 0), .logError], false) :=
  (c9_surface_error_handling sampleState 0).2.2.1 .timeout (Or.inl rfl)

end BlackHole
